import Mathlib

/-!
Verification of the cart-checkout repository's cart store, pricing and
validation logic, shallowly embedded from the TypeScript source.
Monetary amounts and quantities (JS numbers) are modelled as exact
rationals (`Rat`) and integers (`Int`).
-/

set_option maxHeartbeats 1000000

namespace CartCheckout

/-- Modelled from the spec (src/types/cart is not under src/):
ProductVariant — identifier, display name; only the identifier is used by
the embedded code paths. -/
structure ProductVariant where
  id : String
  name : String
deriving DecidableEq, Repr

/-- Modelled from the spec (src/types/cart is not under src/):
Product — identifier, display name, unit price, optional variant
descriptor; only these fields are used by the embedded code paths. -/
structure Product where
  id : String
  name : String
  price : Rat
  variant : Option ProductVariant
deriving DecidableEq, Repr

/-- Modelled from the spec (src/types/cart is not under src/):
CartItem — product snapshot, quantity, item key. -/
structure CartItem where
  product : Product
  quantity : Int
  itemKey : String
deriving DecidableEq, Repr

/-- src/lib/cart-utils.ts `generateItemKey`. -/
def generateItemKey (product : Product) : String :=
  match product.variant with
  | some v => product.id ++ "-" ++ v.id
  | none => product.id

/-- src/context/CartContext.tsx `CartState`: items plus the two UI flags. -/
structure CartState where
  items : List CartItem
  isOpen : Bool
  isLoading : Bool
deriving DecidableEq, Repr

/-- src/context/CartContext.tsx `initialState`. -/
def initialState : CartState :=
  { items := [], isOpen := false, isLoading := true }

/-- src/context/CartContext.tsx `CartAction`: the command set of the store. -/
inductive CartAction where
  | addItem (product : Product) (quantity : Int)
  | removeItem (itemKey : String)
  | updateQuantity (itemKey : String) (quantity : Int)
  | clearCart
  | openCart
  | closeCart
  | toggleCart
  | setLoading (b : Bool)
  | hydrate (items : List CartItem)
deriving DecidableEq, Repr

/-- The ADD_ITEM merge path of the reducer: `findIndex` on the item key
followed by a copy with the matched element's quantity incremented, i.e.
the first line whose key matches gets its quantity bumped in place. -/
def bumpFirst (itemKey : String) (quantity : Int) : List CartItem → List CartItem
  | [] => []
  | item :: rest =>
    if item.itemKey == itemKey then
      { item with quantity := item.quantity + quantity } :: rest
    else
      item :: bumpFirst itemKey quantity rest

/-- src/context/CartContext.tsx `cartReducer`. -/
def cartReducer (state : CartState) (action : CartAction) : CartState :=
  match action with
  | .addItem product quantity =>
    let itemKey := generateItemKey product
    if state.items.any (fun item => item.itemKey == itemKey) then
      { state with items := bumpFirst itemKey quantity state.items }
    else
      { state with
          items := state.items ++ [{ product := product, quantity := quantity, itemKey := itemKey }] }
  | .removeItem itemKey =>
    { state with items := state.items.filter (fun item => !(item.itemKey == itemKey)) }
  | .updateQuantity itemKey quantity =>
    if quantity ≤ 0 then
      { state with items := state.items.filter (fun item => !(item.itemKey == itemKey)) }
    else
      { state with
          items := state.items.map (fun item =>
            if item.itemKey == itemKey then { item with quantity := quantity } else item) }
  | .clearCart => { state with items := [] }
  | .openCart => { state with isOpen := true }
  | .closeCart => { state with isOpen := false }
  | .toggleCart => { state with isOpen := !state.isOpen }
  | .setLoading b => { state with isLoading := b }
  | .hydrate items => { state with items := items, isLoading := false }

/-- src/context/CartContext.tsx `addItem` convenience method: the quantity
parameter has JS default 1, which fires only when the argument is missing
(`none`); an explicit value, positive or not, is dispatched as given. -/
def addItem (state : CartState) (product : Product) (quantity : Option Int) : CartState :=
  cartReducer state (.addItem product (quantity.getD 1))

/-- Running a sequence of commands from a starting snapshot. -/
def runActions (state : CartState) (actions : List CartAction) : CartState :=
  actions.foldl cartReducer state

/-- src/lib/cart-utils.ts `calculateSubtotal`. -/
def calculateSubtotal (items : List CartItem) : Rat :=
  items.foldl (fun sum item => sum + item.product.price * (item.quantity : Rat)) 0

/-- src/lib/cart-utils.ts `calculateItemCount`. -/
def calculateItemCount (items : List CartItem) : Int :=
  items.foldl (fun count item => count + item.quantity) 0

/-- src/lib/cart-utils.ts `calculateShipping`: free over $50, else $5.99. -/
def calculateShipping (subtotal : Rat) : Rat :=
  if 50 ≤ subtotal then 0 else 5.99

/-- src/lib/cart-utils.ts `calculateTax`: 8% of subtotal. -/
def calculateTax (subtotal : Rat) : Rat :=
  subtotal * 0.08

/-- The record returned by src/lib/cart-utils.ts `calculateTotals`. -/
structure Totals where
  subtotal : Rat
  shippingCost : Rat
  tax : Rat
  total : Rat
deriving DecidableEq, Repr

/-- src/lib/cart-utils.ts `calculateTotals`. -/
def calculateTotals (items : List CartItem) : Totals :=
  let subtotal := calculateSubtotal items
  let shippingCost := calculateShipping subtotal
  let tax := calculateTax subtotal
  { subtotal := subtotal, shippingCost := shippingCost, tax := tax,
    total := subtotal + shippingCost + tax }

/-- The character class `\s` of JS regexes (whitespace). -/
def jsWhitespace (c : Char) : Bool :=
  c = ' ' || c = '\t' || c = '\n' || c = '\r' || c = '\x0b' || c = '\x0c' ||
  c = '\u00a0' || c = '\u1680' || ('\u2000' ≤ c && c ≤ '\u200a') ||
  c = '\u2028' || c = '\u2029' || c = '\u202f' || c = '\u205f' || c = '\u3000' || c = '\ufeff'

/-- The character class `[^\s@]` of the email regex in
src/lib/cart-utils.ts `isValidEmail`. -/
def emailChar (c : Char) : Bool :=
  !jsWhitespace c && c ≠ '@'

/-- The sub-match `[^\s@]+$` of the email regex: the tld segment. -/
def tldPart (l : List Char) : Bool :=
  !l.isEmpty && l.all emailChar

/-- The sub-match `[^\s@]*\.[^\s@]+$` of the email regex: what remains of
the domain segment after its first character. -/
def domTail : List Char → Bool
  | [] => false
  | c :: rest => (c == '.' && tldPart rest) || (emailChar c && domTail rest)

/-- The sub-match `[^\s@]+\.[^\s@]+$` of the email regex: the part after
the `@`. -/
def domainPart : List Char → Bool
  | [] => false
  | c :: rest => emailChar c && domTail rest

/-- The sub-match `[^\s@]*@[^\s@]+\.[^\s@]+$`: what remains of the local
segment after its first character, then the rest of the email regex. -/
def localTail : List Char → Bool
  | [] => false
  | c :: rest => (c == '@' && domainPart rest) || (emailChar c && localTail rest)

/-- src/lib/cart-utils.ts `isValidEmail`: full match of
`^[^\s@]+@[^\s@]+\.[^\s@]+$`, embedded as a backtracking matcher with the
standard existential-decomposition semantics of the regex. -/
def isValidEmail (email : String) : Bool :=
  match email.data with
  | [] => false
  | c :: rest => emailChar c && localTail rest

/-- The character class `[\d\s\-+()]` of the phone regex. -/
def phoneChar (c : Char) : Bool :=
  c.isDigit || jsWhitespace c || c = '-' || c = '+' || c = '(' || c = ')'

/-- src/lib/cart-utils.ts `isValidPhone`: full match of `^[\d\s\-+()]{7,}$`. -/
def isValidPhone (phone : String) : Bool :=
  7 ≤ phone.data.length && phone.data.all phoneChar

/-- src/lib/cart-utils.ts `isValidPostalCode`: for "US" a full match of
`^\d{5}(-\d{4})?$`, otherwise any string of length at least 3. -/
def isValidPostalCode (postalCode : String) (country : String) : Bool :=
  if country = "US" then
    match postalCode.data with
    | [a, b, c, d, e] =>
      a.isDigit && b.isDigit && c.isDigit && d.isDigit && e.isDigit
    | [a, b, c, d, e, h, f, g, i, j] =>
      a.isDigit && b.isDigit && c.isDigit && d.isDigit && e.isDigit &&
      h = '-' && f.isDigit && g.isDigit && i.isDigit && j.isDigit
    | _ => false
  else
    3 ≤ postalCode.length

/-- Modelled from the spec (src/types/cart is not under src/):
ShippingAddress — the checkout form's shipping fields. -/
structure ShippingAddress where
  firstName : String
  lastName : String
  email : String
  phone : String
  address1 : String
  address2 : String
  city : String
  state : String
  postalCode : String
  country : String
deriving DecidableEq, Repr

/-- Modelled from the spec (src/types/cart is not under src/):
BillingAddress — the shipping fields plus the same-as-shipping flag. -/
structure BillingAddress extends ShippingAddress where
  sameAsShipping : Bool
deriving DecidableEq, Repr

/-- The test `!field.trim()` of CheckoutForm `validateForm`: the trimmed
string is empty, i.e. the field holds no non-whitespace character. -/
def trimIsEmpty (s : String) : Bool :=
  s.data.all jsWhitespace

/-- CheckoutForm `validateForm` (src/unnamed/part_000): the error map it
builds, as a key-ordered association list mirroring JS object-key
insertion order. `validateForm()` returns true exactly when this list is
empty. -/
def validateForm (shipping : ShippingAddress) (billing : BillingAddress)
    (showBillingAddress : Bool) : List (String × String) :=
  (if trimIsEmpty shipping.firstName then [("shipping.firstName", "First name is required")] else []) ++
  (if trimIsEmpty shipping.lastName then [("shipping.lastName", "Last name is required")] else []) ++
  (if trimIsEmpty shipping.email then [("shipping.email", "Email is required")]
   else if !isValidEmail shipping.email then [("shipping.email", "Please enter a valid email")]
   else []) ++
  (if !(shipping.phone == "") && !isValidPhone shipping.phone then
    [("shipping.phone", "Please enter a valid phone number")] else []) ++
  (if trimIsEmpty shipping.address1 then [("shipping.address1", "Address is required")] else []) ++
  (if trimIsEmpty shipping.city then [("shipping.city", "City is required")] else []) ++
  (if trimIsEmpty shipping.state then [("shipping.state", "State is required")] else []) ++
  (if trimIsEmpty shipping.postalCode then [("shipping.postalCode", "Postal code is required")]
   else if !isValidPostalCode shipping.postalCode shipping.country then
    [("shipping.postalCode", "Please enter a valid postal code")]
   else []) ++
  (if showBillingAddress && !billing.sameAsShipping then
    (if trimIsEmpty billing.firstName then [("billing.firstName", "First name is required")] else []) ++
    (if trimIsEmpty billing.lastName then [("billing.lastName", "Last name is required")] else []) ++
    (if trimIsEmpty billing.email then [("billing.email", "Email is required")]
     else if !isValidEmail billing.email then [("billing.email", "Please enter a valid email")]
     else []) ++
    (if trimIsEmpty billing.address1 then [("billing.address1", "Address is required")] else []) ++
    (if trimIsEmpty billing.city then [("billing.city", "City is required")] else []) ++
    (if trimIsEmpty billing.state then [("billing.state", "State is required")] else []) ++
    (if trimIsEmpty billing.postalCode then [("billing.postalCode", "Postal code is required")]
     else if !isValidPostalCode billing.postalCode billing.country then
      [("billing.postalCode", "Please enter a valid postal code")]
     else [])
  else [])

/-- Observable outcome of one CheckoutForm `handleSubmit` run: the error
map afterwards, the cart line list afterwards, whether the order-creation
collaborator was invoked, whether the cart was cleared, and whether the
payment redirect was reached. -/
structure SubmitResult where
  errors : List (String × String)
  itemsAfter : List CartItem
  collaboratorCalled : Bool
  cartCleared : Bool
  redirected : Bool
deriving DecidableEq, Repr

/-- CheckoutForm `handleSubmit` (src/unnamed/part_000), with the awaited
order-creation collaborator outcome passed in as `createOrderResult`
(`Except.error msg` models a rejection whose message is `msg`): validation
failure returns early with the field errors set; an empty cart returns
early with the single form-level error; otherwise the collaborator is
called, and on success the cart is cleared and the redirect performed,
while on failure the errors hold exactly the form-level message and the
cart is left as it was. -/
def handleSubmit (shipping : ShippingAddress) (billing : BillingAddress)
    (showBillingAddress : Bool) (items : List CartItem)
    (createOrderResult : Except String Unit) : SubmitResult :=
  let newErrors := validateForm shipping billing showBillingAddress
  if newErrors ≠ [] then
    { errors := newErrors, itemsAfter := items,
      collaboratorCalled := false, cartCleared := false, redirected := false }
  else if items.length = 0 then
    { errors := [("form", "Your cart is empty")], itemsAfter := items,
      collaboratorCalled := false, cartCleared := false, redirected := false }
  else
    match createOrderResult with
    | .ok _ =>
      { errors := [], itemsAfter := [],
        collaboratorCalled := true, cartCleared := true, redirected := true }
    | .error msg =>
      { errors := [("form", msg)], itemsAfter := items,
        collaboratorCalled := true, cartCleared := false, redirected := false }

/-- The totals object computed by OrderSummary
(src/components/cart/OrderSummary.tsx): `calculateTotals` of the items,
with the caller-supplied shipping/tax overrides substituted via `??`
(nullish coalescing, here `Option.getD`) and the discount subtracted from
the total. -/
structure SummaryTotals where
  subtotal : Rat
  shippingCost : Rat
  tax : Rat
  discount : Rat
  total : Rat
deriving DecidableEq, Repr

/-- OrderSummary totals memo (src/components/cart/OrderSummary.tsx). -/
def orderSummaryTotals (items : List CartItem) (customShipping customTax : Option Rat)
    (discount : Rat) : SummaryTotals :=
  let calculated := calculateTotals items
  { subtotal := calculated.subtotal,
    shippingCost := customShipping.getD calculated.shippingCost,
    tax := customTax.getD calculated.tax,
    discount := discount,
    total := calculated.subtotal + customShipping.getD calculated.shippingCost +
      customTax.getD calculated.tax - discount }

/-- The item keys of a line list, in order. -/
def itemKeys (items : List CartItem) : List String :=
  items.map (fun item => item.itemKey)

/-- The item key determined by a (productId, variantId) pair, as
src/lib/cart-utils.ts `generateItemKey` computes it. -/
def keyOfPair (productId : String) (variantId : Option String) : String :=
  match variantId with
  | some v => productId ++ "-" ++ v
  | none => productId

/-- A command whose payload respects the spec's caller obligation on
quantities: an AddItem quantity is at least 1 (a missing quantity having
already been defaulted to 1 by `addItem`), and every line of a Hydrate
payload carries quantity at least 1. -/
def goodQuantities : CartAction → Bool
  | .addItem _ q => 1 ≤ q
  | .hydrate items => items.all (fun item => 1 ≤ item.quantity)
  | _ => true

/-- Whether a list of characters holds an `@` with a `.` somewhere after
it. -/
def hasAtThenDot : List Char → Bool
  | [] => false
  | c :: rest => (c == '@' && rest.contains '.') || hasAtThenDot rest

/-- Modelled from the spec: the verbal email shape of the spec sentence —
no embedded whitespace, at least one `@`, and at least one `.` after it. -/
def specEmailShape (s : String) : Bool :=
  s.data.all (fun c => !jsWhitespace c) && hasAtThenDot s.data

/-- Concrete product without a variant. -/
def prodA : Product :=
  { id := "prod-a", name := "Gadget", price := 10, variant := none }

/-- Concrete product for the pricing scenario: unit price 29.99. -/
def prodW : Product :=
  { id := "prod-1", name := "Widget", price := 29.99, variant := none }

/-- Concrete product whose id itself contains a dash: "a-b", no variant. -/
def prodDash : Product :=
  { id := "a-b", name := "First", price := 10, variant := none }

/-- Concrete product with id "a" and variant id "b". -/
def prodVar : Product :=
  { id := "a", name := "Second", price := 20,
    variant := some { id := "b", name := "Variant B" } }

/-- Concrete cart line for `prodA`. -/
def itemA : CartItem :=
  { product := prodA, quantity := 1, itemKey := "prod-a" }

/-- Concrete cart line for `prodW`. -/
def itemW : CartItem :=
  { product := prodW, quantity := 1, itemKey := "prod-1" }

/-- Concrete cart snapshot holding one line with price 29.99, quantity 1. -/
def cartW : CartState :=
  { items := [itemW], isOpen := false, isLoading := false }

/-- Concrete shipping address that passes validation. -/
def shipOK : ShippingAddress :=
  { firstName := "John", lastName := "Doe", email := "a@b.com", phone := "",
    address1 := "1 Main St", address2 := "", city := "Springfield",
    state := "IL", postalCode := "12345", country := "US" }

/-- Concrete billing address flagged same-as-shipping. -/
def billOK : BillingAddress :=
  { firstName := "", lastName := "", email := "", phone := "",
    address1 := "", address2 := "", city := "", state := "",
    postalCode := "", country := "US", sameAsShipping := true }

/-- C7: calculateShipping returns 0 for every subtotal ≥ 50 (boundary
inclusive) and the positive flat fee 5.99 for every subtotal < 50; in
particular it is positive at 49.99, zero at 50.00, and monotone
non-increasing in the subtotal. -/
theorem C7_shipping_threshold :
    (∀ s : Rat, 50 ≤ s → calculateShipping s = 0) ∧
    (∀ s : Rat, s < 50 → calculateShipping s = 5.99 ∧ 0 < calculateShipping s) ∧
    0 < calculateShipping 49.99 ∧
    calculateShipping 50 = 0 ∧
    (∀ s t : Rat, s ≤ t → calculateShipping t ≤ calculateShipping s) := by
  refine ⟨fun s hs => ?_, fun s hs => ?_, ?_, ?_, fun s t hst => ?_⟩
  · simp [calculateShipping, hs]
  · have h : ¬ (50 : Rat) ≤ s := not_le.mpr hs
    constructor
    · simp [calculateShipping, h]
    · simp only [calculateShipping, h, if_false]
      norm_num
  · have h : ¬ (50 : Rat) ≤ 49.99 := by norm_num
    simp only [calculateShipping, h, if_false]
    norm_num
  · simp [calculateShipping]
  · by_cases h : (50 : Rat) ≤ s
    · have ht : (50 : Rat) ≤ t := le_trans h hst
      simp [calculateShipping, h, ht]
    · by_cases h2 : (50 : Rat) ≤ t
      · simp only [calculateShipping, h, h2, if_true, if_false]
        norm_num
      · simp [calculateShipping, h, h2]

/-- Witness for C7 at concrete subtotals 60 and 49. -/
theorem C7_shipping_threshold_witness :
    ((50 : Rat) ≤ 60 ∧ calculateShipping 60 = 0) ∧
    ((49 : Rat) < 50 ∧ calculateShipping 49 = 5.99) ∧
    ((49 : Rat) ≤ 60 ∧ calculateShipping 60 ≤ calculateShipping 49) :=
  ⟨⟨by norm_num, C7_shipping_threshold.1 60 (by norm_num)⟩,
   ⟨by norm_num, (C7_shipping_threshold.2.1 49 (by norm_num)).1⟩,
   ⟨by norm_num, C7_shipping_threshold.2.2.2.2 49 60 (by norm_num)⟩⟩

/-- C6: for every line list and every combination of caller-supplied
shipping override, tax override and discount, the order-summary total is
subtotal + (override or computed shipping) + (override or computed tax)
− discount, and a discount exceeding the sum of the other terms makes the
total negative (no clamping at zero). -/
theorem C6_order_summary_total (items : List CartItem)
    (customShipping customTax : Option Rat) (discount : Rat) :
    (orderSummaryTotals items customShipping customTax discount).total
      = calculateSubtotal items
        + customShipping.getD (calculateShipping (calculateSubtotal items))
        + customTax.getD (calculateTax (calculateSubtotal items))
        - discount
    ∧ (calculateSubtotal items
        + customShipping.getD (calculateShipping (calculateSubtotal items))
        + customTax.getD (calculateTax (calculateSubtotal items)) < discount →
      (orderSummaryTotals items customShipping customTax discount).total < 0) := by
  constructor
  · simp [orderSummaryTotals, calculateTotals]
  · intro h
    simp only [orderSummaryTotals, calculateTotals]
    linarith

/-- Witness for C6: empty cart, no overrides, discount 10 gives the
negative total 0 + 5.99 + 0 − 10. -/
theorem C6_order_summary_total_witness :
    calculateSubtotal []
        + (none : Option Rat).getD (calculateShipping (calculateSubtotal []))
        + (none : Option Rat).getD (calculateTax (calculateSubtotal [])) < 10
    ∧ (orderSummaryTotals [] none none 10).total < 0 :=
  ⟨by simp [calculateSubtotal, calculateShipping, calculateTax]; norm_num,
   (C6_order_summary_total [] none none 10).2
     (by simp [calculateSubtotal, calculateShipping, calculateTax]; norm_num)⟩

/-- C8: starting from a cart holding one line with price 29.99 and
quantity 1, AddItem of the same product with quantity 2 yields exactly one
line with quantity 3, and calculateTotals on the result gives subtotal
89.97, shipping 0, tax 7.1976 (8% of 89.97) and total 97.1676 ≈ 97.17. -/
theorem C8_pricing_scenario :
    (cartReducer cartW (.addItem prodW 2)).items
      = [{ product := prodW, quantity := 3, itemKey := "prod-1" }]
    ∧ calculateTotals (cartReducer cartW (.addItem prodW 2)).items
        = { subtotal := 89.97, shippingCost := 0, tax := 7.1976, total := 97.1676 }
    ∧ (97.1676 : Rat) = 89.97 + 0 + 89.97 * 0.08
    ∧ |(97.1676 : Rat) - 97.17| < 0.01 := by
  refine ⟨rfl, ?_, by norm_num, by rw [abs_sub_lt_iff]; constructor <;> norm_num⟩
  have h : (cartReducer cartW (.addItem prodW 2)).items
      = [{ product := prodW, quantity := 3, itemKey := "prod-1" }] := rfl
  rw [h]
  simp [calculateTotals, calculateSubtotal, calculateShipping, calculateTax, prodW]
  norm_num

/-- C10: the distinct products prodDash (id "a-b", no variant) and prodVar
(id "a", variant id "b") share the item key "a-b", so adding prodVar to a
cart holding a prodDash line merges into that line: quantities are summed
and the stored product snapshot remains prodDash. -/
theorem C10_key_collision :
    generateItemKey prodDash = "a-b"
    ∧ generateItemKey prodVar = "a-b"
    ∧ prodDash ≠ prodVar
    ∧ (cartReducer (cartReducer initialState (.addItem prodDash 1))
        (.addItem prodVar 2)).items
      = [{ product := prodDash, quantity := 3, itemKey := "a-b" }] := by
  refine ⟨rfl, rfl, ?_, rfl⟩
  intro h
  have : prodDash.id = prodVar.id := by rw [h]
  simp [prodDash, prodVar] at this

/-- C4: when the order-creation collaborator rejects during a checkout
submission that passed validation on a non-empty cart, the cart lines are
exactly what they were before submission (the cart is never cleared on the
failure path) and the error state holds exactly one entry, the form-level
message. -/
theorem C4_failure_preserves_cart (shipping : ShippingAddress)
    (billing : BillingAddress) (showBillingAddress : Bool)
    (items : List CartItem) (msg : String)
    (hv : validateForm shipping billing showBillingAddress = [])
    (hne : items ≠ []) :
    (handleSubmit shipping billing showBillingAddress items (.error msg)).itemsAfter = items
    ∧ (handleSubmit shipping billing showBillingAddress items (.error msg)).errors
        = [("form", msg)]
    ∧ (handleSubmit shipping billing showBillingAddress items (.error msg)).cartCleared
        = false := by
  have hlen : ¬ items.length = 0 := by
    simpa [List.length_eq_zero] using hne
  simp [handleSubmit, hv, hlen]

/-- Witness for C4 at a concrete valid form, one-line cart and rejection
message. -/
theorem C4_failure_preserves_cart_witness :
    validateForm shipOK billOK true = []
    ∧ ([itemW] : List CartItem) ≠ []
    ∧ (handleSubmit shipOK billOK true [itemW] (.error "Card declined")).itemsAfter = [itemW]
    ∧ (handleSubmit shipOK billOK true [itemW] (.error "Card declined")).errors
        = [("form", "Card declined")]
    ∧ (handleSubmit shipOK billOK true [itemW] (.error "Card declined")).cartCleared = false :=
  ⟨by decide, by simp,
   (C4_failure_preserves_cart shipOK billOK true [itemW] "Card declined"
     (by decide) (by simp)).1,
   (C4_failure_preserves_cart shipOK billOK true [itemW] "Card declined"
     (by decide) (by simp)).2.1,
   (C4_failure_preserves_cart shipOK billOK true [itemW] "Card declined"
     (by decide) (by simp)).2.2⟩

/-- C5: a submission with an empty cart and a form that passes validation
is rejected with the single form-level error "Your cart is empty" and the
order-creation collaborator is not called; more generally the collaborator
is never called when any validation error exists or the cart is empty. -/
theorem C5_empty_cart_blocks (shipping : ShippingAddress)
    (billing : BillingAddress) (showBillingAddress : Bool)
    (items : List CartItem) (createOrderResult : Except String Unit) :
    (validateForm shipping billing showBillingAddress = [] →
      (handleSubmit shipping billing showBillingAddress [] createOrderResult).errors
          = [("form", "Your cart is empty")]
      ∧ (handleSubmit shipping billing showBillingAddress [] createOrderResult).collaboratorCalled
          = false)
    ∧ ((validateForm shipping billing showBillingAddress ≠ [] ∨ items = []) →
      (handleSubmit shipping billing showBillingAddress items createOrderResult).collaboratorCalled
        = false) := by
  constructor
  · intro hv
    simp [handleSubmit, hv]
  · intro h
    by_cases hv : validateForm shipping billing showBillingAddress = []
    · have hitems : items = [] := h.resolve_left (by simp [hv])
      subst hitems
      simp [handleSubmit, hv]
    · simp [handleSubmit, hv]

/-- Witness for C5 at a concrete valid form and the empty cart. -/
theorem C5_empty_cart_blocks_witness :
    validateForm shipOK billOK true = []
    ∧ (handleSubmit shipOK billOK true [] (.ok ())).errors = [("form", "Your cart is empty")]
    ∧ (handleSubmit shipOK billOK true [] (.ok ())).collaboratorCalled = false
    ∧ (handleSubmit shipOK billOK true [] (.ok ())).collaboratorCalled = false :=
  ⟨by decide,
   ((C5_empty_cart_blocks shipOK billOK true [] (.ok ())).1 (by decide)).1,
   ((C5_empty_cart_blocks shipOK billOK true [] (.ok ())).1 (by decide)).2,
   (C5_empty_cart_blocks shipOK billOK true [] (.ok ())).2 (Or.inr rfl)⟩

/-- Every line of `bumpFirst key q items` keeps quantity at least 1 when
every line of `items` does and 1 ≤ q. -/
theorem bumpFirst_quantity_ge_one (key : String) (q : Int)
    (items : List CartItem) (hq : 1 ≤ q)
    (hs : ∀ item ∈ items, 1 ≤ item.quantity) :
    ∀ item ∈ bumpFirst key q items, 1 ≤ item.quantity := by
  induction items with
  | nil => intro item h; simp [bumpFirst] at h
  | cons i rest ih =>
    intro item h
    by_cases hk : (i.itemKey == key) = true
    · simp only [bumpFirst, hk, if_true, List.mem_cons] at h
      rcases h with h | h
      · subst h
        have : 1 ≤ i.quantity := hs i (by simp)
        simp only
        omega
      · exact hs item (by simp [h])
    · simp only [bumpFirst] at h
      rw [if_neg hk] at h
      simp only [List.mem_cons] at h
      rcases h with h | h
      · subst h; exact hs item (by simp)
      · exact ih (fun j hj => hs j (by simp [hj])) item h

/-- One reducer step preserves the all-quantities-at-least-1 invariant
under the caller obligation `goodQuantities`. -/
theorem quantities_step (state : CartState) (a : CartAction)
    (hs : ∀ item ∈ state.items, 1 ≤ item.quantity)
    (ha : goodQuantities a = true) :
    ∀ item ∈ (cartReducer state a).items, 1 ≤ item.quantity := by
  cases a with
  | addItem product quantity =>
    have hq : 1 ≤ quantity := by simpa [goodQuantities] using ha
    by_cases hany :
        (state.items.any (fun item => item.itemKey == generateItemKey product)) = true
    · simp only [cartReducer, hany, if_true]
      exact bumpFirst_quantity_ge_one _ _ _ hq hs
    · simp only [cartReducer, hany, if_false]
      intro item h
      rcases List.mem_append.mp h with h | h
      · exact hs item h
      · simp at h; subst h; exact hq
  | removeItem itemKey =>
    intro item h
    simp only [cartReducer] at h
    exact hs item (List.mem_of_mem_filter h)
  | updateQuantity itemKey quantity =>
    by_cases hq : quantity ≤ 0
    · simp only [cartReducer, hq, if_true]
      intro item h
      exact hs item (List.mem_of_mem_filter h)
    · simp only [cartReducer, hq, if_false]
      intro item h
      rcases List.mem_map.mp h with ⟨j, hj, hji⟩
      by_cases hk : (j.itemKey == itemKey) = true
      · simp only [hk, if_true] at hji
        subst hji
        simp only
        omega
      · simp only [hk, if_false] at hji
        subst hji
        exact hs j hj
  | clearCart => intro item h; simp [cartReducer] at h
  | openCart => exact hs
  | closeCart => exact hs
  | toggleCart => exact hs
  | setLoading b => exact hs
  | hydrate items =>
    intro item h
    simp only [cartReducer] at h
    have hall : ∀ x ∈ items, 1 ≤ x.quantity := by
      simpa [goodQuantities, List.all_eq_true] using ha
    exact hall item h

/-- Running commands that respect `goodQuantities` preserves the
all-quantities-at-least-1 invariant. -/
theorem quantities_run (actions : List CartAction) (state : CartState)
    (hs : ∀ item ∈ state.items, 1 ≤ item.quantity)
    (h : ∀ a ∈ actions, goodQuantities a = true) :
    ∀ item ∈ (runActions state actions).items, 1 ≤ item.quantity := by
  induction actions generalizing state with
  | nil => exact hs
  | cons a rest ih =>
    have hstep := quantities_step state a hs (h a (by simp))
    exact ih (cartReducer state a) hstep (fun b hb => h b (by simp [hb]))

/-- C1 counterexample: the claim says a non-positive AddItem quantity
defaults to 1 and no reachable line has quantity below 1, but an AddItem
command with explicit quantity 0 on the empty cart persists a line with
quantity 0 — the JS default fires only for a missing argument. -/
theorem C1_counterexample :
    (addItem initialState prodA (some 0)).items
      = [{ product := prodA, quantity := 0, itemKey := "prod-a" }] := rfl

/-- C1 amended: only a missing AddItem quantity defaults to 1; an explicit
non-positive quantity is stored as given. In every snapshot reachable from
the initial empty cart via commands whose AddItem quantities and Hydrate
payload quantities are at least 1, every line has quantity ≥ 1, and an
UpdateQuantity to 0 or below removes the line rather than keeping it. -/
theorem C1_amended_quantity_invariant (actions : List CartAction)
    (h : ∀ a ∈ actions, goodQuantities a = true) :
    (∀ item ∈ (runActions initialState actions).items, 1 ≤ item.quantity)
    ∧ (∀ (state : CartState) (itemKey : String) (quantity : Int), quantity ≤ 0 →
      (cartReducer state (.updateQuantity itemKey quantity)).items
        = state.items.filter (fun item => !(item.itemKey == itemKey))) := by
  constructor
  · exact quantities_run actions initialState (by simp [initialState]) h
  · intro state itemKey quantity hq
    simp [cartReducer, hq]

/-- Witness for C1 amended: one AddItem of quantity 2 followed by an
UpdateQuantity to 0, which removes the line. -/
theorem C1_amended_quantity_invariant_witness :
    (∀ a ∈ [CartAction.addItem prodA 2, CartAction.updateQuantity "prod-a" 0],
      goodQuantities a = true)
    ∧ (∀ item ∈ (runActions initialState
        [CartAction.addItem prodA 2, CartAction.updateQuantity "prod-a" 0]).items,
      1 ≤ item.quantity)
    ∧ (0 : Int) ≤ 0
    ∧ (cartReducer initialState (.updateQuantity "prod-a" 0)).items
        = initialState.items.filter (fun item => !(item.itemKey == "prod-a")) :=
  ⟨by decide,
   (C1_amended_quantity_invariant
     [CartAction.addItem prodA 2, CartAction.updateQuantity "prod-a" 0] (by decide)).1,
   le_refl 0,
   (C1_amended_quantity_invariant
     [CartAction.addItem prodA 2, CartAction.updateQuantity "prod-a" 0] (by decide)).2
     initialState "prod-a" 0 (le_refl 0)⟩

/-- A product's item key is determined by its (productId, variantId)
pair. -/
theorem generateItemKey_pair (p : Product) (pid : String) (vid : Option String)
    (hid : p.id = pid) (hvar : p.variant.map ProductVariant.id = vid) :
    generateItemKey p = keyOfPair pid vid := by
  subst hid
  subst hvar
  cases hp : p.variant <;> simp [generateItemKey, keyOfPair, hp]

/-- Folding AddItem commands that all target the key of a single-line cart
accumulates their quantities onto that line. -/
theorem addSame_fold (pid : String) (vid : Option String)
    (cmds : List (Product × Int))
    (h : ∀ pq ∈ cmds, pq.1.id = pid ∧ pq.1.variant.map ProductVariant.id = vid)
    (p₀ : Product) (q₀ : Int) (o l : Bool) :
    runActions ⟨[⟨p₀, q₀, keyOfPair pid vid⟩], o, l⟩
        (cmds.map (fun pq => CartAction.addItem pq.1 pq.2))
      = ⟨[⟨p₀, q₀ + (cmds.map Prod.snd).sum, keyOfPair pid vid⟩], o, l⟩ := by
  induction cmds generalizing q₀ with
  | nil => simp [runActions]
  | cons c rest ih =>
    have hc := h c (by simp)
    have hkey : generateItemKey c.1 = keyOfPair pid vid :=
      generateItemKey_pair c.1 pid vid hc.1 hc.2
    have hstep : cartReducer ⟨[⟨p₀, q₀, keyOfPair pid vid⟩], o, l⟩ (.addItem c.1 c.2)
        = ⟨[⟨p₀, q₀ + c.2, keyOfPair pid vid⟩], o, l⟩ := by
      simp [cartReducer, hkey, bumpFirst]
    show runActions (cartReducer ⟨[⟨p₀, q₀, keyOfPair pid vid⟩], o, l⟩ (.addItem c.1 c.2))
        (rest.map (fun pq => CartAction.addItem pq.1 pq.2)) = _
    rw [hstep, ih (fun pq hpq => h pq (by simp [hpq])) (q₀ + c.2)]
    have hsum : q₀ + c.2 + (rest.map Prod.snd).sum
        = q₀ + ((c :: rest).map Prod.snd).sum := by
      simp [add_assoc]
    rw [hsum]

/-- C2: a nonempty sequence of AddItem commands all carrying the same
(productId, variantId) pair with positive quantities, run from the empty
cart, yields exactly one line for that pair whose quantity is the sum of
the quantities added; and whenever the item key is not yet present,
AddItem appends the new line at the end, leaving existing lines
unchanged. -/
theorem C2_same_pair_merges (pid : String) (vid : Option String)
    (c : Product × Int) (rest : List (Product × Int))
    (h : ∀ pq ∈ c :: rest,
      pq.1.id = pid ∧ pq.1.variant.map ProductVariant.id = vid ∧ 1 ≤ pq.2) :
    (runActions initialState
        ((c :: rest).map (fun pq => CartAction.addItem pq.1 pq.2))).items
      = [{ product := c.1, quantity := ((c :: rest).map Prod.snd).sum,
           itemKey := keyOfPair pid vid }]
    ∧ (∀ (state : CartState) (p : Product) (q : Int),
        (∀ item ∈ state.items, item.itemKey ≠ generateItemKey p) →
        (cartReducer state (.addItem p q)).items
          = state.items ++ [{ product := p, quantity := q, itemKey := generateItemKey p }]) := by
  constructor
  · have hc := h c (by simp)
    have hkey : generateItemKey c.1 = keyOfPair pid vid :=
      generateItemKey_pair c.1 pid vid hc.1 hc.2.1
    have hfirst : cartReducer initialState (.addItem c.1 c.2)
        = ⟨[⟨c.1, c.2, keyOfPair pid vid⟩], false, true⟩ := by
      simp [cartReducer, initialState, hkey]
    show (runActions (cartReducer initialState (.addItem c.1 c.2))
        (rest.map (fun pq => CartAction.addItem pq.1 pq.2))).items = _
    rw [hfirst, addSame_fold pid vid rest
      (fun pq hpq => ⟨(h pq (by simp [hpq])).1, (h pq (by simp [hpq])).2.1⟩) c.1 c.2 false true]
    simp [add_assoc]
  · intro state p q habs
    have hany : (state.items.any (fun item => item.itemKey == generateItemKey p)) = false := by
      simp only [List.any_eq_false]
      intro item hitem
      simpa using habs item hitem
    simp [cartReducer, hany]

/-- Witness for C2: two AddItem commands for prodA with quantities 1 and
2 produce the single line of quantity 3. -/
theorem C2_same_pair_merges_witness :
    (∀ pq ∈ [((prodA, 1) : Product × Int), (prodA, 2)],
      pq.1.id = "prod-a" ∧ pq.1.variant.map ProductVariant.id = none ∧ 1 ≤ pq.2)
    ∧ (runActions initialState
        ([((prodA, 1) : Product × Int), (prodA, 2)].map
          (fun pq => CartAction.addItem pq.1 pq.2))).items
      = [{ product := prodA,
           quantity := ([((prodA, 1) : Product × Int), (prodA, 2)].map Prod.snd).sum,
           itemKey := keyOfPair "prod-a" none }] :=
  ⟨by decide,
   (C2_same_pair_merges "prod-a" none (prodA, 1) [(prodA, 2)] (by decide)).1⟩

/-- The function `bumpFirst` does not change the key sequence of a line list. -/
theorem bumpFirst_itemKeys (key : String) (q : Int) (items : List CartItem) :
    itemKeys (bumpFirst key q items) = itemKeys items := by
  induction items with
  | nil => rfl
  | cons i rest ih =>
    by_cases hk : (i.itemKey == key) = true
    · simp [bumpFirst, hk, itemKeys]
    · simp only [bumpFirst]
      rw [if_neg hk]
      simp only [itemKeys, List.map_cons] at ih ⊢
      rw [ih]

/-- The UPDATE_QUANTITY map does not change the key sequence of a line
list. -/
theorem mapQuantity_itemKeys (key : String) (q : Int) (items : List CartItem) :
    itemKeys (items.map (fun item =>
      if item.itemKey == key then { item with quantity := q } else item))
      = itemKeys items := by
  induction items with
  | nil => rfl
  | cons i rest ih =>
    by_cases hk : (i.itemKey == key) = true
    · simp only [itemKeys, List.map_cons] at ih ⊢
      rw [if_pos hk]
      rw [ih]
    · simp only [itemKeys, List.map_cons] at ih ⊢
      rw [if_neg hk]
      rw [ih]

/-- One reducer step preserves pairwise-distinct item keys, provided a
Hydrate payload itself has pairwise-distinct keys. -/
theorem nodup_step (state : CartState) (a : CartAction)
    (hn : (itemKeys state.items).Nodup)
    (hh : ∀ items, a = CartAction.hydrate items → (itemKeys items).Nodup) :
    (itemKeys (cartReducer state a).items).Nodup := by
  cases a with
  | addItem product quantity =>
    by_cases hany :
        (state.items.any (fun item => item.itemKey == generateItemKey product)) = true
    · simp only [cartReducer]
      rw [if_pos hany]
      rw [show itemKeys (bumpFirst (generateItemKey product) quantity state.items)
          = itemKeys state.items from bumpFirst_itemKeys _ _ _]
      exact hn
    · have hany' : (state.items.any
          (fun item => item.itemKey == generateItemKey product)) = false := by
        simpa using hany
      simp only [cartReducer]
      rw [if_neg hany]
      simp only [itemKeys, List.map_append, List.map_cons, List.map_nil]
      rw [List.nodup_append]
      refine ⟨hn, List.nodup_singleton _, ?_⟩
      intro k hk1 hk2
      simp only [List.mem_singleton] at hk2
      subst hk2
      rcases List.mem_map.mp hk1 with ⟨item, hitem, hkey⟩
      have hne := List.any_eq_false.mp hany' item hitem
      simp only [beq_iff_eq] at hne
      exact hne hkey
  | removeItem itemKey =>
    simp only [cartReducer]
    exact ((List.filter_sublist state.items).map _).nodup hn
  | updateQuantity itemKey quantity =>
    by_cases hq : quantity ≤ 0
    · simp only [cartReducer]
      rw [if_pos hq]
      exact ((List.filter_sublist state.items).map _).nodup hn
    · simp only [cartReducer]
      rw [if_neg hq]
      rw [show itemKeys (state.items.map (fun item =>
          if item.itemKey == itemKey then { item with quantity := quantity } else item))
          = itemKeys state.items from mapQuantity_itemKeys _ _ _]
      exact hn
  | clearCart => simp [cartReducer, itemKeys]
  | openCart => exact hn
  | closeCart => exact hn
  | toggleCart => exact hn
  | setLoading b => exact hn
  | hydrate items => exact hh items rfl

/-- Running commands whose Hydrate payloads have pairwise-distinct keys
preserves pairwise-distinct item keys. -/
theorem nodup_run (actions : List CartAction) (state : CartState)
    (hn : (itemKeys state.items).Nodup)
    (hh : ∀ items, CartAction.hydrate items ∈ actions → (itemKeys items).Nodup) :
    (itemKeys (runActions state actions).items).Nodup := by
  induction actions generalizing state with
  | nil => exact hn
  | cons a rest ih =>
    have hstep := nodup_step state a hn (fun items ha => hh items (by simp [← ha]))
    exact ih (cartReducer state a) hstep (fun items hmem => hh items (by simp [hmem]))

/-- C3 counterexample: the claim includes Hydrate among the commands that
map a snapshot with pairwise-distinct keys to another, but Hydrate
replaces the line list wholesale — applied to the (distinct-keyed) initial
snapshot with a duplicate-key payload it produces duplicate keys. -/
theorem C3_hydrate_counterexample :
    (itemKeys initialState.items).Nodup
    ∧ ¬ (itemKeys (cartReducer initialState (.hydrate [itemA, itemA])).items).Nodup := by
  constructor
  · decide
  · decide

/-- C3 amended: every command other than Hydrate maps a snapshot with
pairwise-distinct item keys to one with pairwise-distinct item keys;
Hydrate yields distinct keys exactly when its payload's keys are distinct;
hence every snapshot reachable from the empty cart via commands whose
Hydrate payloads have distinct keys contains no duplicate item keys. -/
theorem C3_amended_unique_keys :
    (∀ (state : CartState) (a : CartAction),
      (∀ items, a ≠ CartAction.hydrate items) →
      (itemKeys state.items).Nodup →
      (itemKeys (cartReducer state a).items).Nodup)
    ∧ (∀ (state : CartState) (items : List CartItem),
      (itemKeys (cartReducer state (.hydrate items)).items).Nodup
        ↔ (itemKeys items).Nodup)
    ∧ (∀ actions : List CartAction,
      (∀ items, CartAction.hydrate items ∈ actions → (itemKeys items).Nodup) →
      (itemKeys (runActions initialState actions).items).Nodup) := by
  refine ⟨?_, ?_, ?_⟩
  · intro state a hna hn
    exact nodup_step state a hn (fun items ha => absurd ha (hna items))
  · intro state items
    exact Iff.rfl
  · intro actions hh
    exact nodup_run actions initialState (by simp [initialState, itemKeys]) hh

/-- Witness for C3 amended at the one-command list [AddItem prodA 1]. -/
theorem C3_amended_unique_keys_witness :
    (∀ items, CartAction.hydrate items ∈ [CartAction.addItem prodA 1]
      → (itemKeys items).Nodup)
    ∧ (itemKeys (runActions initialState [CartAction.addItem prodA 1]).items).Nodup :=
  ⟨fun items hmem => by simp at hmem,
   C3_amended_unique_keys.2.2 [CartAction.addItem prodA 1]
     (fun items hmem => by simp at hmem)⟩

/-- The matcher `tldPart` holds exactly on nonempty runs of `[^\s@]` characters. -/
theorem tldPart_iff (l : List Char) :
    tldPart l = true ↔ l ≠ [] ∧ l.all emailChar = true := by
  cases l <;> simp [tldPart]

/-- The matcher `domTail` holds exactly on lists of the shape b ++ "." ++ c with b a
run of `[^\s@]` characters and c a nonempty such run. -/
theorem domTail_iff (l : List Char) :
    domTail l = true ↔ ∃ b c, l = b ++ '.' :: c ∧ b.all emailChar = true
      ∧ c ≠ [] ∧ c.all emailChar = true := by
  induction l with
  | nil =>
    simp only [domTail, Bool.false_eq_true, false_iff]
    rintro ⟨b, c, heq, -, -, -⟩
    exact List.cons_ne_nil _ _ (List.append_eq_nil.mp heq.symm).2
  | cons x rest ih =>
    constructor
    · intro h
      simp only [domTail, Bool.or_eq_true, Bool.and_eq_true, beq_iff_eq] at h
      rcases h with ⟨hx, ht⟩ | ⟨hx, ht⟩
      · subst hx
        rcases (tldPart_iff rest).mp ht with ⟨hne, hall⟩
        exact ⟨[], rest, rfl, rfl, hne, hall⟩
      · rcases ih.mp ht with ⟨b, c, rfl, hb, hc, hall⟩
        exact ⟨x :: b, c, rfl, by simp [hx, hb], hc, hall⟩
    · rintro ⟨b, c, heq, hb, hc, hall⟩
      cases b with
      | nil =>
        simp only [List.nil_append, List.cons.injEq] at heq
        rcases heq with ⟨hx, hrest⟩
        subst hx
        subst hrest
        simp only [domTail, Bool.or_eq_true, Bool.and_eq_true, beq_iff_eq]
        exact Or.inl ⟨by trivial, (tldPart_iff _).mpr ⟨hc, hall⟩⟩
      | cons y b' =>
        simp only [List.cons_append, List.cons.injEq] at heq
        rcases heq with ⟨hx, hrest⟩
        subst hx
        subst hrest
        simp only [List.all_cons, Bool.and_eq_true] at hb
        simp only [domTail, Bool.or_eq_true, Bool.and_eq_true, beq_iff_eq]
        exact Or.inr ⟨hb.1, ih.mpr ⟨b', c, rfl, hb.2, hc, hall⟩⟩

/-- The matcher `domainPart` holds exactly on lists of the shape b ++ "." ++ c with b
and c nonempty runs of `[^\s@]` characters. -/
theorem domainPart_iff (l : List Char) :
    domainPart l = true ↔ ∃ b c, l = b ++ '.' :: c ∧ b ≠ []
      ∧ b.all emailChar = true ∧ c ≠ [] ∧ c.all emailChar = true := by
  cases l with
  | nil =>
    simp only [domainPart, Bool.false_eq_true, false_iff]
    rintro ⟨b, c, heq, -, -, -, -⟩
    exact List.cons_ne_nil _ _ (List.append_eq_nil.mp heq.symm).2
  | cons x rest =>
    simp only [domainPart, Bool.and_eq_true]
    constructor
    · rintro ⟨hx, ht⟩
      rcases (domTail_iff rest).mp ht with ⟨b, c, rfl, hb, hc, hall⟩
      exact ⟨x :: b, c, rfl, by simp, by simp [hx, hb], hc, hall⟩
    · rintro ⟨b, c, heq, hbne, hb, hc, hall⟩
      cases b with
      | nil => exact absurd rfl hbne
      | cons y b' =>
        simp only [List.cons_append, List.cons.injEq] at heq
        rcases heq with ⟨hx, hrest⟩
        subst hx
        subst hrest
        simp only [List.all_cons, Bool.and_eq_true] at hb
        exact ⟨hb.1, (domTail_iff _).mpr ⟨b', c, rfl, hb.2, hc, hall⟩⟩

/-- The matcher `localTail` holds exactly on lists of the shape a ++ "@" ++ rest with
a a run of `[^\s@]` characters and rest matching `domainPart`. -/
theorem localTail_iff (l : List Char) :
    localTail l = true ↔ ∃ a rest, l = a ++ '@' :: rest
      ∧ a.all emailChar = true ∧ domainPart rest = true := by
  induction l with
  | nil =>
    simp only [localTail, Bool.false_eq_true, false_iff]
    rintro ⟨a, rest, heq, -, -⟩
    exact List.cons_ne_nil _ _ (List.append_eq_nil.mp heq.symm).2
  | cons x xs ih =>
    constructor
    · intro h
      simp only [localTail, Bool.or_eq_true, Bool.and_eq_true, beq_iff_eq] at h
      rcases h with ⟨hx, hd⟩ | ⟨hx, ht⟩
      · subst hx
        exact ⟨[], xs, rfl, rfl, hd⟩
      · rcases ih.mp ht with ⟨a, rest, rfl, ha, hd⟩
        exact ⟨x :: a, rest, rfl, by simp [hx, ha], hd⟩
    · rintro ⟨a, rest, heq, ha, hd⟩
      cases a with
      | nil =>
        simp only [List.nil_append, List.cons.injEq] at heq
        rcases heq with ⟨hx, hxs⟩
        subst hx
        subst hxs
        simp only [localTail, Bool.or_eq_true, Bool.and_eq_true, beq_iff_eq]
        exact Or.inl ⟨by trivial, hd⟩
      | cons y a' =>
        simp only [List.cons_append, List.cons.injEq] at heq
        rcases heq with ⟨hx, hxs⟩
        subst hx
        subst hxs
        simp only [List.all_cons, Bool.and_eq_true] at ha
        simp only [localTail, Bool.or_eq_true, Bool.and_eq_true, beq_iff_eq]
        exact Or.inr ⟨ha.1, ih.mpr ⟨a', rest, rfl, ha.2, hd⟩⟩

/-- The email regex matcher holds exactly on strings of the shape
local ++ "@" ++ domain ++ "." ++ tld with all three segments nonempty runs
of non-whitespace, non-"@" characters (domain and tld may contain further
dots). -/
theorem isValidEmail_iff (s : String) :
    isValidEmail s = true ↔ ∃ a b c : List Char,
      s.data = a ++ '@' :: (b ++ '.' :: c) ∧ a ≠ [] ∧ b ≠ [] ∧ c ≠ []
      ∧ a.all emailChar = true ∧ b.all emailChar = true ∧ c.all emailChar = true := by
  cases hs : s.data with
  | nil =>
    simp only [isValidEmail, hs, Bool.false_eq_true, false_iff]
    rintro ⟨a, b, c, heq, -, -, -, -, -, -⟩
    exact List.cons_ne_nil _ _ (List.append_eq_nil.mp heq.symm).2
  | cons x xs =>
    simp only [isValidEmail, hs, Bool.and_eq_true]
    constructor
    · rintro ⟨hx, ht⟩
      rcases (localTail_iff xs).mp ht with ⟨a, rest, rfl, ha, hd⟩
      rcases (domainPart_iff rest).mp hd with ⟨b, c, rfl, hbne, hb, hcne, hc⟩
      exact ⟨x :: a, b, c, rfl, by simp, hbne, hcne, by simp [hx, ha], hb, hc⟩
    · rintro ⟨a, b, c, heq, hane, hbne, hcne, ha, hb, hc⟩
      cases a with
      | nil => exact absurd rfl hane
      | cons y a' =>
        simp only [List.cons_append, List.cons.injEq] at heq
        rcases heq with ⟨hx, hxs⟩
        subst hx
        subst hxs
        simp only [List.all_cons, Bool.and_eq_true] at ha
        refine ⟨ha.1, (localTail_iff _).mpr ⟨a', b ++ '.' :: c, rfl, ha.2, ?_⟩⟩
        exact (domainPart_iff _).mpr ⟨b, c, rfl, hbne, hb, hcne, hc⟩

/-- C9 counterexample: the string "a@b." has no whitespace, one "@" and a
"." after it — the claim's stated shape — yet isValidEmail rejects it,
because the regex demands a character between the "@" and a "." and a
character after a ".". -/
theorem C9_email_shape_counterexample :
    specEmailShape "a@b." = true ∧ isValidEmail "a@b." = false := by
  exact ⟨by decide, by decide⟩

/-- C9 amended: isValidEmail accepts exactly the strings of the shape
local@domain.tld in which local, domain and tld are nonempty and free of
whitespace and "@" — so exactly one "@" occurs, and some "." after it has
at least one allowed character on each side; in particular "a@b.com" is
accepted and "not-an-email" is rejected. -/
theorem C9_amended_email_shape :
    (∀ s : String, isValidEmail s = true ↔ ∃ a b c : List Char,
      s.data = a ++ '@' :: (b ++ '.' :: c) ∧ a ≠ [] ∧ b ≠ [] ∧ c ≠ []
      ∧ a.all emailChar = true ∧ b.all emailChar = true ∧ c.all emailChar = true)
    ∧ isValidEmail "a@b.com" = true
    ∧ isValidEmail "not-an-email" = false :=
  ⟨isValidEmail_iff, by decide, by decide⟩

/-- Witness for C9 amended at the concrete accepted string "a@b.com". -/
theorem C9_amended_email_shape_witness :
    ∃ a b c : List Char,
      ("a@b.com" : String).data = a ++ '@' :: (b ++ '.' :: c) ∧ a ≠ [] ∧ b ≠ [] ∧ c ≠ []
      ∧ a.all emailChar = true ∧ b.all emailChar = true ∧ c.all emailChar = true :=
  (C9_amended_email_shape.1 "a@b.com").mp (by decide)

end CartCheckout
